import Mathlib

/-
Verification of the DBacked backup agent's job worker
(src/lib/backupRunner.ts) via a shallow embedding in Lean.

External collaborators (crypto hash, S3 client, remote API, database
dumper, luxon date formatting) are modelled as parameters or as
environment-chosen results; the worker's own control flow, byte layout
and message handling are translated from the source.
-/

namespace DbackedAgent

/-- JavaScript values as far as the error-summary expressions need them:
`undefined` or a string. -/
inductive JsVal where
  | undef : JsVal
  | str : String → JsVal
deriving DecidableEq

/-- JavaScript truthiness for the values we model: `undefined` is falsy,
a string is truthy iff non-empty. -/
def jsTruthy : JsVal → Bool
  | JsVal.undef => false
  | JsVal.str s => s ≠ ""

/-- The `response` object an HTTP-library error may carry; only its `data`
field is read by the code. -/
structure JsResponse where
  data : JsVal
deriving DecidableEq

/-- A JavaScript error as read by the worker: optional `code`, optional
`response` (with `data`), `message` and `stack`. -/
structure JsError where
  code : JsVal
  response : Option JsResponse
  message : String
  stack : String
deriving DecidableEq

/-- Value of the subexpression `e.response && e.response.data`:
`undefined` when `response` is absent, otherwise `response.data`. -/
def respData (e : JsError) : JsVal :=
  match e.response with
  | none => JsVal.undef
  | some r => r.data

/-- Value of `e.code || (e.response && e.response.data) || e.message`
(backupRunner.ts line 96): JavaScript `||` returns the first truthy
operand, or the last operand. -/
def errorSummary (e : JsError) : JsVal :=
  if jsTruthy e.code then e.code
  else if jsTruthy (respData e) then respData e
  else JsVal.str e.message

/-- JSON string escaping for one character (the cases relevant here). -/
def jsonEscapeChar (c : Char) : List Char :=
  if c = '\\' then ['\\', '\\']
  else if c = '"' then ['\\', '"']
  else if c = '\n' then ['\\', 'n']
  else [c]

/-- JSON string escaping. -/
def jsonEscape (s : String) : String :=
  String.mk (s.data.flatMap jsonEscapeChar)

/-- Behavior of `JSON.stringify` on the values we model; inside a
template literal, `JSON.stringify(undefined)` renders as the text
`undefined`. -/
def jsonStringify : JsVal → String
  | JsVal.undef => "undefined"
  | JsVal.str s => "\"" ++ jsonEscape s ++ "\""

/-- The payload of the error message sent by the catch block
(backupRunner.ts lines 94-97). -/
def errorPayload (e : JsError) : String :=
  jsonStringify (errorSummary e) ++ "\n" ++ e.stack

/-- Bytes of `Buffer.from('DBACKED')` (backupRunner.ts line 32): ASCII
code points of the magic literal. -/
def magicBytes : List Nat := "DBACKED".data.map Char.toNat

/-- Bytes of `Buffer.from(new Uint32Array([n]).buffer)` on the
little-endian hosts the agent targets: the base-256 little-endian
decomposition of `n` into 4 bytes (backupRunner.ts lines 34-35). -/
def le32 (n : Nat) : List Nat :=
  [n % 256, n / 256 % 256, n / 65536 % 256, n / 16777216 % 256]

/-- Recombine a 4-byte little-endian length field into a number. -/
def leDecode32 : List Nat → Nat
  | [a, b, c, d] => a + 256 * b + 65536 * c + 16777216 * d
  | _ => 0

/-- The envelope header bytes, in write order (backupRunner.ts lines
32-37): magic, version, 4-byte wrapped-key length, wrapped key, IV. -/
def headerBytes (version encryptedKey iv : List Nat) : List Nat :=
  magicBytes ++ version ++ le32 encryptedKey.length ++ encryptedKey ++ iv

/-- Reconstruct (magic, version, key length, key, IV) from header bytes,
given the fixed version and IV widths: split at 7 bytes of magic, the
version width, the 4-byte length field, length-many key bytes, the IV
width. -/
def parseHeader (versionLen ivLen : Nat) (b : List Nat) :
    Option (List Nat × List Nat × Nat × List Nat × List Nat) :=
  let magic := b.take 7
  let r1 := b.drop 7
  let version := r1.take versionLen
  let r2 := r1.drop versionLen
  let lenBytes := r2.take 4
  let r3 := r2.drop 4
  let n := leDecode32 lenBytes
  let key := r3.take n
  let iv := (r3.drop n).take ivLen
  if magic = magicBytes then some (magic, version, n, key, iv) else none

/-- A UTC instant, to the minute. -/
structure UtcTime where
  day : Nat
  month : Nat
  year : Nat
  hour : Nat
  minute : Nat
deriving DecidableEq

/-- Zero-pad a number to two digits. -/
def pad2 (n : Nat) : String :=
  if n < 10 then "0" ++ toString n else toString n

/-- Zero-pad a number to four digits. -/
def pad4 (n : Nat) : String :=
  if n < 10 then "000" ++ toString n
  else if n < 100 then "00" ++ toString n
  else if n < 1000 then "0" ++ toString n
  else toString n

/-- Modelled from the spec: luxon is an external library, so
`DateTime.utc().toFormat('ddLLyyyyHHmm')` (backupRunner.ts line 48) is
modelled per the spec's reading of that format string: two-digit day,
two-digit month, four-digit year, two-digit hour, two-digit minute, no
separators. -/
def toFormatDdLLyyyyHHmm (t : UtcTime) : String :=
  pad2 t.day ++ pad2 t.month ++ pad4 t.year ++ pad2 t.hour ++ pad2 t.minute

/-- The object name derived for the free tier (backupRunner.ts line 48):
the template literal with the database name and UTC timestamp. -/
def mkBackupFilename (dbName : String) (t : UtcTime) : String :=
  "backup_" ++ dbName ++ "_" ++ toFormatDdLLyyyyHHmm t

/-- Subscription tiers, from config.js. -/
inductive SUBSCRIPTION_TYPE where
  | free : SUBSCRIPTION_TYPE
  | premium : SUBSCRIPTION_TYPE
deriving DecidableEq

/-- The config fields `backupDatabase` reads. -/
structure Config where
  subscriptionType : SUBSCRIPTION_TYPE
  dbName : String
  agentId : String
  publicKey : String
deriving DecidableEq

/-- Behaviors of the external collaborators for one run: each awaited
call either resolves with a value or rejects with a JavaScript error,
and the uploader chooses which (part number, part hash) pairs to request
URLs for. -/
structure Env where
  checkDbDumpProgramRes : Except JsError Unit
  createBackupKeyRes : Except JsError (List Nat × List Nat)
  startDumperRes : Except JsError (List (List Nat) × List Nat)
  nowUtc : UtcTime
  initMultipartUploadRes : Except JsError String
  partRequests : List (Nat × String)
  uploadToS3Res : Except JsError (List (Nat × String))
  finishUploadRes : Except JsError Unit
  completeMultipartUploadRes : Except JsError Unit

/-- Observable events of one worker run, in program order. -/
inductive Ev where
  | write (bytes : List Nat)
  | initMultipartUpload (filename : String)
  | getUploadPartUrl (partNumber : Nat) (agentId : String) (partHash : String)
  | getUploadPartUrlFromLocalCredentials (filename : String) (uploadId : String)
      (partNumber : Nat) (partHash : String)
  | hashEnd (consumed : List Nat)
  | finishUpload (partsEtag : List (Nat × String)) (hashHex : String)
      (agentId : String) (publicKey : String)
  | completeMultipartUpload (filename : String) (uploadId : String)
      (partsEtag : List (Nat × String))
  | exitZero
  | sendError (payload : String)
deriving DecidableEq

/-- Terminal state of the job: clean termination or the catch block. -/
inductive JobOutcome where
  | succeeded : JobOutcome
  | failed : JobOutcome
deriving DecidableEq

/-- Trace semantics of `backupDatabase` (backupRunner.ts lines 16-99).
`VERSION` (the constants module is external) and the streaming `md5`
digest function are parameters. The try block runs the steps in source
order; the first rejection jumps to the catch block, which sends one
error message; success ends with `process.exit(0)`. The `hashEnd` event
records the bytes the hash accumulator has consumed when `hash.end()`
runs (line 71): the whole envelope, header included, piped through the
PassThrough fan-out (lines 38-44). -/
def backupDatabase (VERSION : List Nat) (md5hex : List Nat → String)
    (config : Config) (env : Env) : List Ev × JobOutcome :=
  match env.checkDbDumpProgramRes with
  | Except.error e => ([Ev.sendError (errorPayload e)], JobOutcome.failed)
  | Except.ok _ =>
  match env.createBackupKeyRes with
  | Except.error e => ([Ev.sendError (errorPayload e)], JobOutcome.failed)
  | Except.ok (_key, encryptedKey) =>
  match env.startDumperRes with
  | Except.error e => ([Ev.sendError (errorPayload e)], JobOutcome.failed)
  | Except.ok (chunks, iv) =>
  let headerWrites : List Ev :=
    [Ev.write magicBytes, Ev.write VERSION, Ev.write (le32 encryptedKey.length),
     Ev.write encryptedKey, Ev.write iv]
  let pre : List Ev := headerWrites ++ chunks.map Ev.write
  let envelope : List Nat := headerBytes VERSION encryptedKey iv ++ chunks.flatten
  match config.subscriptionType with
  | SUBSCRIPTION_TYPE.free =>
    let filename := mkBackupFilename config.dbName env.nowUtc
    match env.initMultipartUploadRes with
    | Except.error e =>
        (pre ++ [Ev.initMultipartUpload filename, Ev.sendError (errorPayload e)],
         JobOutcome.failed)
    | Except.ok uploadId =>
    let urlEvs := env.partRequests.map fun pr =>
      Ev.getUploadPartUrlFromLocalCredentials filename uploadId pr.1 pr.2
    match env.uploadToS3Res with
    | Except.error e =>
        (pre ++ [Ev.initMultipartUpload filename] ++ urlEvs
           ++ [Ev.sendError (errorPayload e)], JobOutcome.failed)
    | Except.ok partsEtag =>
    match env.completeMultipartUploadRes with
    | Except.error e =>
        (pre ++ [Ev.initMultipartUpload filename] ++ urlEvs
           ++ [Ev.hashEnd envelope,
               Ev.completeMultipartUpload filename uploadId partsEtag,
               Ev.sendError (errorPayload e)], JobOutcome.failed)
    | Except.ok _ =>
        (pre ++ [Ev.initMultipartUpload filename] ++ urlEvs
           ++ [Ev.hashEnd envelope,
               Ev.completeMultipartUpload filename uploadId partsEtag,
               Ev.exitZero], JobOutcome.succeeded)
  | SUBSCRIPTION_TYPE.premium =>
    let urlEvs := env.partRequests.map fun pr =>
      Ev.getUploadPartUrl pr.1 config.agentId pr.2
    match env.uploadToS3Res with
    | Except.error e =>
        (pre ++ urlEvs ++ [Ev.sendError (errorPayload e)], JobOutcome.failed)
    | Except.ok partsEtag =>
    match env.finishUploadRes with
    | Except.error e =>
        (pre ++ urlEvs
           ++ [Ev.hashEnd envelope,
               Ev.finishUpload partsEtag (md5hex envelope) config.agentId
                 config.publicKey,
               Ev.sendError (errorPayload e)], JobOutcome.failed)
    | Except.ok _ =>
        (pre ++ urlEvs
           ++ [Ev.hashEnd envelope,
               Ev.finishUpload partsEtag (md5hex envelope) config.agentId
                 config.publicKey,
               Ev.exitZero], JobOutcome.succeeded)

/-- The first rejection a run hits, in source order, mirroring the
branch structure of `backupDatabase`; `none` when every step resolves. -/
def firstError (config : Config) (env : Env) : Option JsError :=
  match env.checkDbDumpProgramRes with
  | Except.error e => some e
  | Except.ok _ =>
  match env.createBackupKeyRes with
  | Except.error e => some e
  | Except.ok _ =>
  match env.startDumperRes with
  | Except.error e => some e
  | Except.ok _ =>
  match config.subscriptionType with
  | SUBSCRIPTION_TYPE.free =>
    match env.initMultipartUploadRes with
    | Except.error e => some e
    | Except.ok _ =>
    match env.uploadToS3Res with
    | Except.error e => some e
    | Except.ok _ =>
    match env.completeMultipartUploadRes with
    | Except.error e => some e
    | Except.ok _ => none
  | SUBSCRIPTION_TYPE.premium =>
    match env.uploadToS3Res with
    | Except.error e => some e
    | Except.ok _ =>
    match env.finishUploadRes with
    | Except.error e => some e
    | Except.ok _ => none

/-- Is an event an error message to the Controller? -/
def isErrEv : Ev → Bool
  | Ev.sendError _ => true
  | _ => false

/-- Is an event the clean-termination signal? -/
def isExitEv : Ev → Bool
  | Ev.exitZero => true
  | _ => false

/-- Number of error messages in a trace. -/
def errCount (t : List Ev) : Nat := t.countP isErrEv

/-- Number of clean-termination signals in a trace. -/
def exitCount (t : List Ev) : Nat := t.countP isExitEv

/-- Bytes carried by a stream-write event, if any. -/
def evWriteBytes : Ev → Option (List Nat)
  | Ev.write b => some b
  | _ => none

/-- The byte sequences written to the backup file stream, in order. -/
def writesOf (t : List Ev) : List (List Nat) :=
  t.filterMap evWriteBytes

/-- Is an event a part-URL request (either tier)? -/
def isUrlEv : Ev → Bool
  | Ev.getUploadPartUrl _ _ _ => true
  | Ev.getUploadPartUrlFromLocalCredentials _ _ _ _ => true
  | _ => false

/-- The part-URL request events of a trace, in order. -/
def urlRequestEvs (t : List Ev) : List Ev := t.filter isUrlEv

/-- One chunk arriving at the streaming hash (`backupFileStream.pipe(hash)`,
line 44): the accumulator state is the bytes consumed so far. -/
def hashFeed (buf chunk : List Nat) : List Nat := buf ++ chunk

/-- State of the hash accumulator after consuming a sequence of chunks. -/
def hashConsume (parts : List (List Nat)) : List Nat :=
  parts.foldl hashFeed []

/-- Digest reported by the accumulator at end-of-stream, for a given
digest function over the consumed bytes. -/
def hashAccumDigest (f : List Nat → String) (parts : List (List Nat)) : String :=
  f (hashConsume parts)

/-- The `backupInfo` object a start command carries (only its `backup`
field is read by the worker). -/
structure BackupInfo where
  backup : Option String
deriving DecidableEq

/-- The payload of a well-formed start command. -/
structure StartPayload where
  config : Config
  backupInfo : BackupInfo
deriving DecidableEq

/-- A process message after `JSON.parse` succeeded: the destructured
`type` and `payload` fields, each possibly absent. -/
structure ParsedMsg where
  type : Option String
  payload : Option StartPayload
deriving DecidableEq

/-- Actions the message handler can take. -/
inductive HandlerAct where
  | startBackup (config : Config) (backupInfo : BackupInfo)
deriving DecidableEq

/-- The `process.on('message')` handler (backupRunner.ts lines 101-108).
`none` models a message `JSON.parse` rejects; the handler's catch block
swallows every exception, including the `payload.config` access throwing
when `payload` is absent, so those paths take no action and emit
nothing. -/
def handleMessage (m : Option ParsedMsg) : List HandlerAct :=
  match m with
  | none => []
  | some pm =>
    if pm.type = some "startBackup" then
      match pm.payload with
      | none => []
      | some p => [HandlerAct.startBackup p.config p.backupInfo]
    else []

/-- Rendering of a value inside a JavaScript template literal. -/
def jsTemplate : JsVal → String
  | JsVal.undef => "undefined"
  | JsVal.str s => s

/-- Evaluation of `error.code || (error.response && error.responserror.data)
|| error.message` (backupRunner.ts line 115): when `error.code` is falsy
and `error.response` is truthy, the right operand of `&&` dereferences
`.data` on the undefined property `error.responserror`, which throws a
TypeError, modelled as `Except.error ()`. -/
def uncaughtSummary (e : JsError) : Except Unit JsVal :=
  if jsTruthy e.code then Except.ok e.code
  else
    match e.response with
    | none => Except.ok (JsVal.str e.message)
    | some _ => Except.error ()

/-- Observable events of the `uncaughtException` handler. -/
inductive HandlerEv where
  | consoleError : HandlerEv
  | sendErrorMsg (payload : String) : HandlerEv
  | exitOne : HandlerEv
deriving DecidableEq

/-- The `process.on('uncaughtException')` handler (backupRunner.ts lines
110-118): `console.error(e)`, then build the payload; if that expression
throws, neither `process.send` nor `process.exit(1)` is reached. -/
def uncaughtExceptionHandler (e : JsError) : List HandlerEv :=
  HandlerEv.consoleError ::
    (match uncaughtSummary e with
     | Except.error _ => []
     | Except.ok v =>
        [HandlerEv.sendErrorMsg (jsTemplate v ++ "\n" ++ e.stack),
         HandlerEv.exitOne])

/-- Counting with a predicate that rejects every image of a map gives 0. -/
theorem countP_map_zero {α β : Type} (p : β → Bool) (f : α → β)
    (h : ∀ a, p (f a) = false) (l : List α) : (l.map f).countP p = 0 := by
  induction l with
  | nil => rfl
  | cons a l ih => simp [List.countP_cons, h, ih]

/-- Ciphertext writes are neither error messages nor exit signals. -/
theorem errCount_map_write (chunks : List (List Nat)) :
    (chunks.map Ev.write).countP isErrEv = 0 :=
  countP_map_zero _ _ (fun _ => rfl) _

/-- Ciphertext writes are not exit signals. -/
theorem exitCount_map_write (chunks : List (List Nat)) :
    (chunks.map Ev.write).countP isExitEv = 0 :=
  countP_map_zero _ _ (fun _ => rfl) _

/-- Local part-URL requests are not error messages. -/
theorem errCount_map_local (fn uid : String) (parts : List (Nat × String)) :
    (parts.map fun pr =>
      Ev.getUploadPartUrlFromLocalCredentials fn uid pr.1 pr.2).countP isErrEv = 0 :=
  countP_map_zero _ _ (fun _ => rfl) _

/-- Local part-URL requests are not exit signals. -/
theorem exitCount_map_local (fn uid : String) (parts : List (Nat × String)) :
    (parts.map fun pr =>
      Ev.getUploadPartUrlFromLocalCredentials fn uid pr.1 pr.2).countP isExitEv = 0 :=
  countP_map_zero _ _ (fun _ => rfl) _

/-- Remote part-URL requests are not error messages. -/
theorem errCount_map_remote (a : String) (parts : List (Nat × String)) :
    (parts.map fun pr => Ev.getUploadPartUrl pr.1 a pr.2).countP isErrEv = 0 :=
  countP_map_zero _ _ (fun _ => rfl) _

/-- Remote part-URL requests are not exit signals. -/
theorem exitCount_map_remote (a : String) (parts : List (Nat × String)) :
    (parts.map fun pr => Ev.getUploadPartUrl pr.1 a pr.2).countP isExitEv = 0 :=
  countP_map_zero _ _ (fun _ => rfl) _

/-- Composed-predicate form of `errCount_map_write`. -/
theorem errCount_comp_write (chunks : List (List Nat)) :
    chunks.countP (isErrEv ∘ Ev.write) = 0 := by
  induction chunks with
  | nil => rfl
  | cons a l ih => simp [List.countP_cons, ih, Function.comp, isErrEv]

/-- Composed-predicate form of `exitCount_map_write`. -/
theorem exitCount_comp_write (chunks : List (List Nat)) :
    chunks.countP (isExitEv ∘ Ev.write) = 0 := by
  induction chunks with
  | nil => rfl
  | cons a l ih => simp [List.countP_cons, ih, Function.comp, isExitEv]

/-- Composed-predicate form of `errCount_map_local`. -/
theorem errCount_comp_local (fn uid : String) (parts : List (Nat × String)) :
    parts.countP
      (isErrEv ∘ fun pr =>
        Ev.getUploadPartUrlFromLocalCredentials fn uid pr.1 pr.2) = 0 := by
  induction parts with
  | nil => rfl
  | cons a l ih => simp [List.countP_cons, ih, Function.comp, isErrEv]

/-- Composed-predicate form of `exitCount_map_local`. -/
theorem exitCount_comp_local (fn uid : String) (parts : List (Nat × String)) :
    parts.countP
      (isExitEv ∘ fun pr =>
        Ev.getUploadPartUrlFromLocalCredentials fn uid pr.1 pr.2) = 0 := by
  induction parts with
  | nil => rfl
  | cons a l ih => simp [List.countP_cons, ih, Function.comp, isExitEv]

/-- Composed-predicate form of `errCount_map_remote`. -/
theorem errCount_comp_remote (a : String) (parts : List (Nat × String)) :
    parts.countP (isErrEv ∘ fun pr => Ev.getUploadPartUrl pr.1 a pr.2) = 0 := by
  induction parts with
  | nil => rfl
  | cons x l ih => simp [List.countP_cons, ih, Function.comp, isErrEv]

/-- Composed-predicate form of `exitCount_map_remote`. -/
theorem exitCount_comp_remote (a : String) (parts : List (Nat × String)) :
    parts.countP (isExitEv ∘ fun pr => Ev.getUploadPartUrl pr.1 a pr.2) = 0 := by
  induction parts with
  | nil => rfl
  | cons x l ih => simp [List.countP_cons, ih, Function.comp, isExitEv]

/-- Folding the hash feed accumulates exactly the concatenation. -/
theorem hashConsume_eq_flatten (parts : List (List Nat)) :
    hashConsume parts = parts.flatten := by
  have key : ∀ (init : List Nat) (ps : List (List Nat)),
      ps.foldl hashFeed init = init ++ ps.flatten := by
    intro init ps
    induction ps generalizing init with
    | nil => simp [List.foldl]
    | cons a l ih => simp [List.foldl, hashFeed, ih, List.append_assoc]
  simpa using key [] parts

/-- C1: for every config and every behavior of the external steps, one
run of the Job Worker reaches exactly one terminal outcome: either it
succeeds, sending no error message and signalling clean termination
once, or it fails, sending exactly one error message and never
signalling clean termination — never both, never neither. -/
theorem backupDatabase_exactly_one_terminal
    (VERSION : List Nat) (md5hex : List Nat → String) (config : Config) (env : Env) :
    ((backupDatabase VERSION md5hex config env).2 = JobOutcome.succeeded ∧
      errCount (backupDatabase VERSION md5hex config env).1 = 0 ∧
      exitCount (backupDatabase VERSION md5hex config env).1 = 1) ∨
    ((backupDatabase VERSION md5hex config env).2 = JobOutcome.failed ∧
      errCount (backupDatabase VERSION md5hex config env).1 = 1 ∧
      exitCount (backupDatabase VERSION md5hex config env).1 = 0) := by
  obtain ⟨chk, key, dump, now, init, parts, up, fin, comp⟩ := env
  obtain ⟨tier, dbName, agentId, pk⟩ := config
  cases chk with
  | error e =>
      right
      simp [backupDatabase, errCount, exitCount, isErrEv, isExitEv]
  | ok u =>
  cases key with
  | error e =>
      right
      simp [backupDatabase, errCount, exitCount, isErrEv, isExitEv]
  | ok kp =>
  obtain ⟨k, ek⟩ := kp
  cases dump with
  | error e =>
      right
      simp [backupDatabase, errCount, exitCount, isErrEv, isExitEv]
  | ok ci =>
  obtain ⟨chunks, iv⟩ := ci
  cases tier with
  | free =>
    cases init with
    | error e =>
        right
        simp [backupDatabase, errCount, exitCount, isErrEv, isExitEv,
          List.countP_append, List.countP_cons, errCount_map_write,
          exitCount_map_write, errCount_map_local, exitCount_map_local,
          errCount_map_remote, exitCount_map_remote, errCount_comp_write,
          exitCount_comp_write, errCount_comp_local, exitCount_comp_local,
          errCount_comp_remote, exitCount_comp_remote]
    | ok uploadId =>
    cases up with
    | error e =>
        right
        simp [backupDatabase, errCount, exitCount, isErrEv, isExitEv,
          List.countP_append, List.countP_cons, errCount_map_write,
          exitCount_map_write, errCount_map_local, exitCount_map_local,
          errCount_map_remote, exitCount_map_remote, errCount_comp_write,
          exitCount_comp_write, errCount_comp_local, exitCount_comp_local,
          errCount_comp_remote, exitCount_comp_remote]
    | ok partsEtag =>
    cases comp with
    | error e =>
        right
        simp [backupDatabase, errCount, exitCount, isErrEv, isExitEv,
          List.countP_append, List.countP_cons, errCount_map_write,
          exitCount_map_write, errCount_map_local, exitCount_map_local,
          errCount_map_remote, exitCount_map_remote, errCount_comp_write,
          exitCount_comp_write, errCount_comp_local, exitCount_comp_local,
          errCount_comp_remote, exitCount_comp_remote]
    | ok u2 =>
        left
        simp [backupDatabase, errCount, exitCount, isErrEv, isExitEv,
          List.countP_append, List.countP_cons, errCount_map_write,
          exitCount_map_write, errCount_map_local, exitCount_map_local,
          errCount_map_remote, exitCount_map_remote, errCount_comp_write,
          exitCount_comp_write, errCount_comp_local, exitCount_comp_local,
          errCount_comp_remote, exitCount_comp_remote]
  | premium =>
    cases up with
    | error e =>
        right
        simp [backupDatabase, errCount, exitCount, isErrEv, isExitEv,
          List.countP_append, List.countP_cons, errCount_map_write,
          exitCount_map_write, errCount_map_local, exitCount_map_local,
          errCount_map_remote, exitCount_map_remote, errCount_comp_write,
          exitCount_comp_write, errCount_comp_local, exitCount_comp_local,
          errCount_comp_remote, exitCount_comp_remote]
    | ok partsEtag =>
    cases fin with
    | error e =>
        right
        simp [backupDatabase, errCount, exitCount, isErrEv, isExitEv,
          List.countP_append, List.countP_cons, errCount_map_write,
          exitCount_map_write, errCount_map_local, exitCount_map_local,
          errCount_map_remote, exitCount_map_remote, errCount_comp_write,
          exitCount_comp_write, errCount_comp_local, exitCount_comp_local,
          errCount_comp_remote, exitCount_comp_remote]
    | ok u2 =>
        left
        simp [backupDatabase, errCount, exitCount, isErrEv, isExitEv,
          List.countP_append, List.countP_cons, errCount_map_write,
          exitCount_map_write, errCount_map_local, exitCount_map_local,
          errCount_map_remote, exitCount_map_remote, errCount_comp_write,
          exitCount_comp_write, errCount_comp_local, exitCount_comp_local,
          errCount_comp_remote, exitCount_comp_remote]

/-- Ciphertext chunk writes project to exactly the chunks. -/
theorem writesOf_comp_write (chunks : List (List Nat)) :
    chunks.filterMap (evWriteBytes ∘ Ev.write) = chunks := by
  induction chunks with
  | nil => rfl
  | cons a l ih => simp [List.filterMap_cons, Function.comp, evWriteBytes, ih]

/-- Local part-URL requests write nothing to the stream. -/
theorem writesOf_comp_local (fn uid : String) (parts : List (Nat × String)) :
    parts.filterMap (evWriteBytes ∘ fun pr =>
      Ev.getUploadPartUrlFromLocalCredentials fn uid pr.1 pr.2) = [] := by
  induction parts with
  | nil => rfl
  | cons a l ih => simp [List.filterMap_cons, Function.comp, evWriteBytes, ih]

/-- Remote part-URL requests write nothing to the stream. -/
theorem writesOf_comp_remote (a : String) (parts : List (Nat × String)) :
    parts.filterMap (evWriteBytes ∘ fun pr =>
      Ev.getUploadPartUrl pr.1 a pr.2) = [] := by
  induction parts with
  | nil => rfl
  | cons x l ih => simp [List.filterMap_cons, Function.comp, evWriteBytes, ih]

/-- C2: whenever the run reaches the envelope stage (the three preceding
steps resolved), the byte sequences written to the backup file stream
are, in order: the 7-byte magic literal DBACKED, the version bytes, the
4-byte wrapped-key length, exactly the wrapped key bytes, the IV bytes,
and only then the ciphertext chunks — so every header byte precedes
every ciphertext byte. -/
theorem backupDatabase_header_layout
    (VERSION : List Nat) (md5hex : List Nat → String) (config : Config) (env : Env)
    (k ek iv : List Nat) (chunks : List (List Nat))
    (h1 : env.checkDbDumpProgramRes = Except.ok ())
    (h2 : env.createBackupKeyRes = Except.ok (k, ek))
    (h3 : env.startDumperRes = Except.ok (chunks, iv)) :
    writesOf (backupDatabase VERSION md5hex config env).1 =
      [magicBytes, VERSION, le32 ek.length, ek, iv] ++ chunks ∧
    magicBytes = [68, 66, 65, 67, 75, 69, 68] ∧
    magicBytes.length = 7 ∧
    (le32 ek.length).length = 4 ∧
    (writesOf (backupDatabase VERSION md5hex config env).1).flatten =
      headerBytes VERSION ek iv ++ chunks.flatten := by
  obtain ⟨chk, key, dump, now, init, parts, up, fin, comp⟩ := env
  obtain ⟨tier, dbName, agentId, pk⟩ := config
  simp only at h1 h2 h3
  subst h1 h2 h3
  have hmain : writesOf (backupDatabase VERSION md5hex
      ⟨tier, dbName, agentId, pk⟩
      ⟨Except.ok (), Except.ok (k, ek), Except.ok (chunks, iv), now, init, parts,
        up, fin, comp⟩).1 =
      [magicBytes, VERSION, le32 ek.length, ek, iv] ++ chunks := by
    cases tier with
    | free =>
      cases init with
      | error e =>
          simp [backupDatabase, writesOf, List.filterMap_append,
            List.filterMap_cons, evWriteBytes, writesOf_comp_write,
            writesOf_comp_local]
      | ok uploadId =>
        cases up with
        | error e =>
            simp [backupDatabase, writesOf, List.filterMap_append,
              List.filterMap_cons, evWriteBytes, writesOf_comp_write,
              writesOf_comp_local]
        | ok partsEtag =>
          cases comp <;>
            simp [backupDatabase, writesOf, List.filterMap_append,
              List.filterMap_cons, evWriteBytes, writesOf_comp_write,
              writesOf_comp_local]
    | premium =>
      cases up with
      | error e =>
          simp [backupDatabase, writesOf, List.filterMap_append,
            List.filterMap_cons, evWriteBytes, writesOf_comp_write,
            writesOf_comp_remote]
      | ok partsEtag =>
        cases fin <;>
          simp [backupDatabase, writesOf, List.filterMap_append,
            List.filterMap_cons, evWriteBytes, writesOf_comp_write,
            writesOf_comp_remote]
  refine ⟨hmain, by decide, by decide, by simp [le32], ?_⟩
  rw [hmain]
  simp [headerBytes, List.append_assoc]

/-- C3: once uploading succeeds, the very next events are the hash
accumulator end-of-stream — having consumed the whole envelope, header
included — immediately followed by the finalization call: the premium
finish-upload call carrying the digest of exactly those bytes, the
ordered part/ETag list, the agent identifier and the public key, or the
free-tier multipart-completion call. Finalization never begins before
the accumulator reports end-of-stream. -/
theorem backupDatabase_finalize_after_hash
    (VERSION : List Nat) (md5hex : List Nat → String) (config : Config) (env : Env)
    (k ek iv : List Nat) (chunks : List (List Nat))
    (partsEtag : List (Nat × String))
    (h1 : env.checkDbDumpProgramRes = Except.ok ())
    (h2 : env.createBackupKeyRes = Except.ok (k, ek))
    (h3 : env.startDumperRes = Except.ok (chunks, iv))
    (h4 : env.uploadToS3Res = Except.ok partsEtag) :
    (config.subscriptionType = SUBSCRIPTION_TYPE.premium →
      ∃ pre rest, (backupDatabase VERSION md5hex config env).1 =
        pre ++
          [Ev.hashEnd (headerBytes VERSION ek iv ++ chunks.flatten),
           Ev.finishUpload partsEtag
             (md5hex (headerBytes VERSION ek iv ++ chunks.flatten))
             config.agentId config.publicKey] ++ rest) ∧
    (∀ uploadId, config.subscriptionType = SUBSCRIPTION_TYPE.free →
      env.initMultipartUploadRes = Except.ok uploadId →
      ∃ pre rest, (backupDatabase VERSION md5hex config env).1 =
        pre ++
          [Ev.hashEnd (headerBytes VERSION ek iv ++ chunks.flatten),
           Ev.completeMultipartUpload
             (mkBackupFilename config.dbName env.nowUtc) uploadId partsEtag] ++
          rest) := by
  obtain ⟨chk, key, dump, now, init, parts, up, fin, comp⟩ := env
  obtain ⟨tier, dbName, agentId, pk⟩ := config
  simp only at h1 h2 h3 h4
  subst h1 h2 h3 h4
  constructor
  · intro htier
    simp only at htier
    subst htier
    cases fin with
    | error e =>
        exact ⟨[Ev.write magicBytes, Ev.write VERSION,
          Ev.write (le32 ek.length), Ev.write ek, Ev.write iv] ++
            chunks.map Ev.write ++
            (parts.map fun pr => Ev.getUploadPartUrl pr.1 agentId pr.2),
          [Ev.sendError (errorPayload e)],
          by simp [backupDatabase, headerBytes, List.append_assoc]⟩
    | ok u =>
        exact ⟨[Ev.write magicBytes, Ev.write VERSION,
          Ev.write (le32 ek.length), Ev.write ek, Ev.write iv] ++
            chunks.map Ev.write ++
            (parts.map fun pr => Ev.getUploadPartUrl pr.1 agentId pr.2),
          [Ev.exitZero],
          by simp [backupDatabase, headerBytes, List.append_assoc]⟩
  · intro uploadId htier hinit
    simp only at htier hinit
    subst htier hinit
    cases comp with
    | error e =>
        exact ⟨[Ev.write magicBytes, Ev.write VERSION,
          Ev.write (le32 ek.length), Ev.write ek, Ev.write iv] ++
            chunks.map Ev.write ++
            [Ev.initMultipartUpload (mkBackupFilename dbName now)] ++
            (parts.map fun pr =>
              Ev.getUploadPartUrlFromLocalCredentials
                (mkBackupFilename dbName now) uploadId pr.1 pr.2),
          [Ev.sendError (errorPayload e)],
          by simp [backupDatabase, headerBytes, List.append_assoc]⟩
    | ok u =>
        exact ⟨[Ev.write magicBytes, Ev.write VERSION,
          Ev.write (le32 ek.length), Ev.write ek, Ev.write iv] ++
            chunks.map Ev.write ++
            [Ev.initMultipartUpload (mkBackupFilename dbName now)] ++
            (parts.map fun pr =>
              Ev.getUploadPartUrlFromLocalCredentials
                (mkBackupFilename dbName now) uploadId pr.1 pr.2),
          [Ev.exitZero],
          by simp [backupDatabase, headerBytes, List.append_assoc]⟩

/-- Stream writes are not part-URL requests. -/
theorem urlEvs_comp_write (chunks : List (List Nat)) :
    chunks.filter (isUrlEv ∘ Ev.write) = [] := by
  induction chunks with
  | nil => rfl
  | cons a l ih => simp [List.filter_cons, Function.comp, isUrlEv, ih]

/-- Every local part-URL request passes the URL-request filter. -/
theorem urlEvs_comp_local (fn uid : String) (parts : List (Nat × String)) :
    parts.filter (isUrlEv ∘ fun pr =>
      Ev.getUploadPartUrlFromLocalCredentials fn uid pr.1 pr.2) = parts := by
  induction parts with
  | nil => rfl
  | cons a l ih => simp [List.filter_cons, Function.comp, isUrlEv, ih]

/-- Every remote part-URL request passes the URL-request filter. -/
theorem urlEvs_comp_remote (a : String) (parts : List (Nat × String)) :
    parts.filter (isUrlEv ∘ fun pr => Ev.getUploadPartUrl pr.1 a pr.2) = parts := by
  induction parts with
  | nil => rfl
  | cons x l ih => simp [List.filter_cons, Function.comp, isUrlEv, ih]

/-- Map form of `urlEvs_comp_write`. -/
theorem urlEvs_map_write (chunks : List (List Nat)) :
    (chunks.map Ev.write).filter isUrlEv = [] := by
  induction chunks with
  | nil => rfl
  | cons a l ih => simp [List.filter_cons, isUrlEv, ih]

/-- Map form of `urlEvs_comp_local`. -/
theorem urlEvs_map_local (fn uid : String) (parts : List (Nat × String)) :
    (parts.map fun pr =>
      Ev.getUploadPartUrlFromLocalCredentials fn uid pr.1 pr.2).filter isUrlEv =
    parts.map fun pr =>
      Ev.getUploadPartUrlFromLocalCredentials fn uid pr.1 pr.2 := by
  induction parts with
  | nil => rfl
  | cons a l ih => simp [List.filter_cons, isUrlEv, ih]

/-- Map form of `urlEvs_comp_remote`. -/
theorem urlEvs_map_remote (a : String) (parts : List (Nat × String)) :
    (parts.map fun pr => Ev.getUploadPartUrl pr.1 a pr.2).filter isUrlEv =
    parts.map fun pr => Ev.getUploadPartUrl pr.1 a pr.2 := by
  induction parts with
  | nil => rfl
  | cons x l ih => simp [List.filter_cons, isUrlEv, ih]

/-- C4: the upload strategy is fixed by the subscription tier. Free
tier: the worker itself opens a multipart session under the object name
backup_<dbName>_<UTC ddLLyyyyHHmm timestamp>, and every part-URL request
of the run is derived from local object-store credentials, keyed by that
name, the session id, the part number and the part hash, in request
order. Premium tier: every part-URL request of the run goes to the
remote control plane with the part number, the agent identifier and the
part hash, and the worker never opens its own multipart session. -/
theorem backupDatabase_strategy_by_tier
    (VERSION : List Nat) (md5hex : List Nat → String) (config : Config) (env : Env)
    (k ek iv : List Nat) (chunks : List (List Nat))
    (h1 : env.checkDbDumpProgramRes = Except.ok ())
    (h2 : env.createBackupKeyRes = Except.ok (k, ek))
    (h3 : env.startDumperRes = Except.ok (chunks, iv)) :
    (∀ uploadId, config.subscriptionType = SUBSCRIPTION_TYPE.free →
      env.initMultipartUploadRes = Except.ok uploadId →
      Ev.initMultipartUpload (mkBackupFilename config.dbName env.nowUtc) ∈
          (backupDatabase VERSION md5hex config env).1 ∧
      mkBackupFilename config.dbName env.nowUtc =
        "backup_" ++ config.dbName ++ "_" ++ toFormatDdLLyyyyHHmm env.nowUtc ∧
      urlRequestEvs (backupDatabase VERSION md5hex config env).1 =
        env.partRequests.map (fun pr =>
          Ev.getUploadPartUrlFromLocalCredentials
            (mkBackupFilename config.dbName env.nowUtc) uploadId pr.1 pr.2)) ∧
    (config.subscriptionType = SUBSCRIPTION_TYPE.premium →
      urlRequestEvs (backupDatabase VERSION md5hex config env).1 =
        env.partRequests.map (fun pr =>
          Ev.getUploadPartUrl pr.1 config.agentId pr.2) ∧
      ∀ fn, Ev.initMultipartUpload fn ∉
        (backupDatabase VERSION md5hex config env).1) := by
  obtain ⟨chk, key, dump, now, init, parts, up, fin, comp⟩ := env
  obtain ⟨tier, dbName, agentId, pk⟩ := config
  simp only at h1 h2 h3
  subst h1 h2 h3
  constructor
  · intro uploadId htier hinit
    simp only at htier hinit
    subst htier hinit
    refine ⟨?_, rfl, ?_⟩
    · cases up with
      | error e => simp [backupDatabase]
      | ok partsEtag => cases comp <;> simp [backupDatabase]
    · cases up with
      | error e =>
          simp [backupDatabase, urlRequestEvs, List.filter_append,
            List.filter_cons, isUrlEv, urlEvs_comp_write, urlEvs_comp_local,
            urlEvs_map_write, urlEvs_map_local]
      | ok partsEtag =>
          cases comp <;>
            simp [backupDatabase, urlRequestEvs, List.filter_append,
              List.filter_cons, isUrlEv, urlEvs_comp_write, urlEvs_comp_local,
            urlEvs_map_write, urlEvs_map_local]
  · intro htier
    simp only at htier
    subst htier
    constructor
    · cases up with
      | error e =>
          simp [backupDatabase, urlRequestEvs, List.filter_append,
            List.filter_cons, isUrlEv, urlEvs_comp_write, urlEvs_comp_remote,
            urlEvs_map_write, urlEvs_map_remote]
      | ok partsEtag =>
          cases fin <;>
            simp [backupDatabase, urlRequestEvs, List.filter_append,
              List.filter_cons, isUrlEv, urlEvs_comp_write, urlEvs_comp_remote,
            urlEvs_map_write, urlEvs_map_remote]
    · intro fn
      cases up with
      | error e => simp [backupDatabase]
      | ok partsEtag => cases fin <;> simp [backupDatabase]

/-- Recombining the 4-byte little-endian decomposition gives back the
number, for any length below 2^32. -/
theorem leDecode32_le32 (n : Nat) (h : n < 4294967296) :
    leDecode32 (le32 n) = n := by
  simp only [le32, leDecode32]
  omega

/-- C5: parsing the header bytes the worker wrote — splitting at the
7-byte magic, the version width, the 4-byte length field, length-many
key bytes and the fixed IV width — reproduces the original magic,
version, key length, key and IV exactly, whatever ciphertext follows. -/
theorem parseHeader_roundtrip
    (version key iv rest : List Nat)
    (h : key.length < 4294967296) :
    parseHeader version.length iv.length (headerBytes version key iv ++ rest) =
      some (magicBytes, version, key.length, key, iv) := by
  have hmagic : magicBytes.length = 7 := by decide
  have hlen : (le32 key.length).length = 4 := by simp [le32]
  have hdec : leDecode32 (le32 key.length) = key.length := leDecode32_le32 _ h
  simp only [parseHeader, headerBytes, List.append_assoc]
  rw [List.take_left' hmagic, List.drop_left' hmagic,
    List.take_left' rfl, List.drop_left' rfl,
    List.take_left' hlen, List.drop_left' hlen, hdec,
    List.take_left' rfl, List.drop_left' rfl,
    List.take_left' rfl]
  simp

/-- C6: the digest reported by the hash accumulator depends only on the
concatenated byte content fed through it: any two ways of partitioning
the same envelope bytes into upload parts yield the same digest, which
is the digest function applied to the concatenation. -/
theorem hashDigest_chunk_invariant (f : List Nat → String)
    (parts1 parts2 : List (List Nat))
    (h : parts1.flatten = parts2.flatten) :
    hashAccumDigest f parts1 = hashAccumDigest f parts2 ∧
    hashAccumDigest f parts1 = f parts1.flatten := by
  constructor <;> simp [hashAccumDigest, hashConsume_eq_flatten, h]

/-- C9: for every wrapped-key length below 2^32, the 4-byte length field
the worker writes is the base-256 little-endian decomposition of the
length: 4 bytes, each below 256, that recombine to the original
number. -/
theorem le32_little_endian (n : Nat) (h : n < 4294967296) :
    (le32 n).length = 4 ∧
    (∀ b ∈ le32 n, b < 256) ∧
    le32 n = [n % 256, n / 256 % 256, n / 65536 % 256, n / 16777216 % 256] ∧
    leDecode32 (le32 n) = n := by
  refine ⟨by simp [le32], ?_, rfl, leDecode32_le32 n h⟩
  intro b hb
  simp [le32] at hb
  rcases hb with h1 | h1 | h1 | h1 <;> omega

/-- C7: whenever any step of the run rejects, the run delivers exactly
one structured error message to the Controller, whose payload is the
serialized summary — the error code if truthy, else the remote response
body if present and truthy, else the message — followed by a newline and
the stack trace; no clean-termination signal is emitted and the job ends
in the failure state. -/
theorem backupDatabase_error_message
    (VERSION : List Nat) (md5hex : List Nat → String) (config : Config) (env : Env)
    (e : JsError) (h : firstError config env = some e) :
    errCount (backupDatabase VERSION md5hex config env).1 = 1 ∧
    Ev.sendError (errorPayload e) ∈ (backupDatabase VERSION md5hex config env).1 ∧
    exitCount (backupDatabase VERSION md5hex config env).1 = 0 ∧
    (backupDatabase VERSION md5hex config env).2 = JobOutcome.failed ∧
    errorPayload e = jsonStringify (errorSummary e) ++ "\n" ++ e.stack ∧
    (jsTruthy e.code = true → errorSummary e = e.code) ∧
    (jsTruthy e.code = false → jsTruthy (respData e) = true →
      errorSummary e = respData e) ∧
    (jsTruthy e.code = false → jsTruthy (respData e) = false →
      errorSummary e = JsVal.str e.message) := by
  have hsum1 : jsTruthy e.code = true → errorSummary e = e.code := by
    intro h1
    simp [errorSummary, h1]
  have hsum2 : jsTruthy e.code = false → jsTruthy (respData e) = true →
      errorSummary e = respData e := by
    intro h1 h2
    simp [errorSummary, h1, h2]
  have hsum3 : jsTruthy e.code = false → jsTruthy (respData e) = false →
      errorSummary e = JsVal.str e.message := by
    intro h1 h2
    simp [errorSummary, h1, h2]
  refine ⟨?_, ?_, ?_, ?_, rfl, hsum1, hsum2, hsum3⟩ <;>
  · obtain ⟨chk, key, dump, now, init, parts, up, fin, comp⟩ := env
    obtain ⟨tier, dbName, agentId, pk⟩ := config
    cases chk with
    | error e1 =>
        simp only [firstError, Option.some.injEq] at h
        subst h
        simp [backupDatabase, errCount, exitCount, isErrEv, isExitEv]
    | ok u =>
    cases key with
    | error e1 =>
        simp only [firstError, Option.some.injEq] at h
        subst h
        simp [backupDatabase, errCount, exitCount, isErrEv, isExitEv]
    | ok kp =>
    obtain ⟨k, ek⟩ := kp
    cases dump with
    | error e1 =>
        simp only [firstError, Option.some.injEq] at h
        subst h
        simp [backupDatabase, errCount, exitCount, isErrEv, isExitEv]
    | ok ci =>
    obtain ⟨chunks, iv⟩ := ci
    cases tier with
    | free =>
      cases init with
      | error e1 =>
          simp only [firstError, Option.some.injEq] at h
          subst h
          simp [backupDatabase, errCount, exitCount, isErrEv, isExitEv,
            List.countP_append, List.countP_cons, errCount_map_write,
            exitCount_map_write, errCount_map_local, exitCount_map_local,
            errCount_comp_write, exitCount_comp_write, errCount_comp_local,
            exitCount_comp_local, List.mem_append, List.mem_map]
      | ok uploadId =>
      cases up with
      | error e1 =>
          simp only [firstError, Option.some.injEq] at h
          subst h
          simp [backupDatabase, errCount, exitCount, isErrEv, isExitEv,
            List.countP_append, List.countP_cons, errCount_map_write,
            exitCount_map_write, errCount_map_local, exitCount_map_local,
            errCount_comp_write, exitCount_comp_write, errCount_comp_local,
            exitCount_comp_local, List.mem_append, List.mem_map]
      | ok partsEtag =>
      cases comp with
      | error e1 =>
          simp only [firstError, Option.some.injEq] at h
          subst h
          simp [backupDatabase, errCount, exitCount, isErrEv, isExitEv,
            List.countP_append, List.countP_cons, errCount_map_write,
            exitCount_map_write, errCount_map_local, exitCount_map_local,
            errCount_comp_write, exitCount_comp_write, errCount_comp_local,
            exitCount_comp_local, List.mem_append, List.mem_map]
      | ok u2 =>
          simp [firstError] at h
    | premium =>
      cases up with
      | error e1 =>
          simp only [firstError, Option.some.injEq] at h
          subst h
          simp [backupDatabase, errCount, exitCount, isErrEv, isExitEv,
            List.countP_append, List.countP_cons, errCount_map_write,
            exitCount_map_write, errCount_map_remote, exitCount_map_remote,
            errCount_comp_write, exitCount_comp_write, errCount_comp_remote,
            exitCount_comp_remote, List.mem_append, List.mem_map]
      | ok partsEtag =>
      cases fin with
      | error e1 =>
          simp only [firstError, Option.some.injEq] at h
          subst h
          simp [backupDatabase, errCount, exitCount, isErrEv, isExitEv,
            List.countP_append, List.countP_cons, errCount_map_write,
            exitCount_map_write, errCount_map_remote, exitCount_map_remote,
            errCount_comp_write, exitCount_comp_write, errCount_comp_remote,
            exitCount_comp_remote, List.mem_append, List.mem_map]
      | ok u2 =>
          simp [firstError] at h

/-- Result of recognizing a parsed process message as a start command:
the payload when the message is a JSON object with type startBackup and
a payload, `none` otherwise. -/
def isStartCommand (m : Option ParsedMsg) : Option StartPayload :=
  match m with
  | none => none
  | some pm => if pm.type = some "startBackup" then pm.payload else none

/-- C8: a process message that is not a well-formed startBackup command
— non-JSON, wrong type, or missing payload — produces no action and no
diagnostic; a well-formed startBackup command starts exactly one backup
with its payload's config and backupInfo. -/
theorem handleMessage_spec (m : Option ParsedMsg) :
    (isStartCommand m = none → handleMessage m = []) ∧
    (∀ p, isStartCommand m = some p →
      handleMessage m = [HandlerAct.startBackup p.config p.backupInfo]) := by
  cases m with
  | none =>
      exact ⟨fun _ => rfl, fun p hp => by simp [isStartCommand] at hp⟩
  | some pm =>
    obtain ⟨t, pl⟩ := pm
    by_cases ht : t = some "startBackup"
    · subst ht
      cases pl with
      | none =>
          exact ⟨fun _ => by simp [handleMessage],
            fun p hp => by simp [isStartCommand] at hp⟩
      | some p0 =>
          refine ⟨fun hc => ?_, fun p hp => ?_⟩
          · simp [isStartCommand] at hc
          · simp [isStartCommand] at hp
            subst hp
            simp [handleMessage]
    · exact ⟨fun _ => by simp [handleMessage, ht],
        fun p hp => by simp [isStartCommand, ht] at hp⟩

/-- C10: when an uncaught exception has a falsy code and a truthy
response, the handler itself throws while building the payload (it
dereferences `.data` on the undefined property `error.responserror`), so
no error message is sent to the Controller and the handler's exit call
is never reached: only the initial console logging happens. -/
theorem uncaughtException_handler_bug (e : JsError)
    (h1 : jsTruthy e.code = false) (h2 : e.response.isSome = true) :
    uncaughtExceptionHandler e = [HandlerEv.consoleError] ∧
    (∀ p, HandlerEv.sendErrorMsg p ∉ uncaughtExceptionHandler e) ∧
    HandlerEv.exitOne ∉ uncaughtExceptionHandler e := by
  obtain ⟨c, r, msg, stk⟩ := e
  simp only at h1 h2
  cases r with
  | none => simp at h2
  | some r0 =>
      have hmain : uncaughtExceptionHandler ⟨c, some r0, msg, stk⟩ =
          [HandlerEv.consoleError] := by
        simp [uncaughtExceptionHandler, uncaughtSummary, h1]
      refine ⟨hmain, ?_, ?_⟩ <;> simp [hmain]

/-- Concrete instantiation of the header-layout theorem. -/
theorem backupDatabase_header_layout_witness :
    writesOf (backupDatabase [1] (fun _ => "H")
      ⟨SUBSCRIPTION_TYPE.premium, "db", "ag", "pk"⟩
      ⟨Except.ok (), Except.ok ([3], [9, 9]), Except.ok ([[5], [6]], [7]),
        ⟨1, 2, 2026, 3, 4⟩, Except.ok "uid", [(1, "h1")],
        Except.ok [(1, "e1")], Except.ok (), Except.ok ()⟩).1 =
      [magicBytes, [1], le32 2, [9, 9], [7]] ++ [[5], [6]] :=
  (backupDatabase_header_layout [1] (fun _ => "H")
    ⟨SUBSCRIPTION_TYPE.premium, "db", "ag", "pk"⟩
    ⟨Except.ok (), Except.ok ([3], [9, 9]), Except.ok ([[5], [6]], [7]),
      ⟨1, 2, 2026, 3, 4⟩, Except.ok "uid", [(1, "h1")],
      Except.ok [(1, "e1")], Except.ok (), Except.ok ()⟩
    [3] [9, 9] [7] [[5], [6]] rfl rfl rfl).1

/-- Concrete instantiation of the finalize-after-hash theorem. -/
theorem backupDatabase_finalize_after_hash_witness :
    ∃ pre rest,
      (backupDatabase [1] (fun _ => "H")
        ⟨SUBSCRIPTION_TYPE.premium, "db", "ag", "pk"⟩
        ⟨Except.ok (), Except.ok ([3], [9, 9]), Except.ok ([[5], [6]], [7]),
          ⟨1, 2, 2026, 3, 4⟩, Except.ok "uid", [(1, "h1")],
          Except.ok [(1, "e1")], Except.ok (), Except.ok ()⟩).1 =
        pre ++
          [Ev.hashEnd (headerBytes [1] [9, 9] [7] ++ [[5], [6]].flatten),
           Ev.finishUpload [(1, "e1")] "H" "ag" "pk"] ++ rest :=
  (backupDatabase_finalize_after_hash [1] (fun _ => "H")
    ⟨SUBSCRIPTION_TYPE.premium, "db", "ag", "pk"⟩
    ⟨Except.ok (), Except.ok ([3], [9, 9]), Except.ok ([[5], [6]], [7]),
      ⟨1, 2, 2026, 3, 4⟩, Except.ok "uid", [(1, "h1")],
      Except.ok [(1, "e1")], Except.ok (), Except.ok ()⟩
    [3] [9, 9] [7] [[5], [6]] [(1, "e1")] rfl rfl rfl rfl).1 rfl

/-- Concrete instantiation of the strategy-by-tier theorem, free tier. -/
theorem backupDatabase_strategy_by_tier_witness :
    Ev.initMultipartUpload (mkBackupFilename "mydb" ⟨1, 2, 2026, 3, 4⟩) ∈
        (backupDatabase [1] (fun _ => "H")
          ⟨SUBSCRIPTION_TYPE.free, "mydb", "ag", "pk"⟩
          ⟨Except.ok (), Except.ok ([3], [9, 9]), Except.ok ([[5], [6]], [7]),
            ⟨1, 2, 2026, 3, 4⟩, Except.ok "uid", [(1, "h1")],
            Except.ok [(1, "e1")], Except.ok (), Except.ok ()⟩).1 ∧
    mkBackupFilename "mydb" ⟨1, 2, 2026, 3, 4⟩ =
      "backup_" ++ "mydb" ++ "_" ++ toFormatDdLLyyyyHHmm ⟨1, 2, 2026, 3, 4⟩ ∧
    urlRequestEvs (backupDatabase [1] (fun _ => "H")
        ⟨SUBSCRIPTION_TYPE.free, "mydb", "ag", "pk"⟩
        ⟨Except.ok (), Except.ok ([3], [9, 9]), Except.ok ([[5], [6]], [7]),
          ⟨1, 2, 2026, 3, 4⟩, Except.ok "uid", [(1, "h1")],
          Except.ok [(1, "e1")], Except.ok (), Except.ok ()⟩).1 =
      [(1, "h1")].map (fun pr =>
        Ev.getUploadPartUrlFromLocalCredentials
          (mkBackupFilename "mydb" ⟨1, 2, 2026, 3, 4⟩) "uid" pr.1 pr.2) :=
  (backupDatabase_strategy_by_tier [1] (fun _ => "H")
    ⟨SUBSCRIPTION_TYPE.free, "mydb", "ag", "pk"⟩
    ⟨Except.ok (), Except.ok ([3], [9, 9]), Except.ok ([[5], [6]], [7]),
      ⟨1, 2, 2026, 3, 4⟩, Except.ok "uid", [(1, "h1")],
      Except.ok [(1, "e1")], Except.ok (), Except.ok ()⟩
    [3] [9, 9] [7] [[5], [6]] rfl rfl rfl).1 "uid" rfl rfl

/-- Concrete instantiation of the header round-trip theorem. -/
theorem parseHeader_roundtrip_witness :
    parseHeader 1 2 (headerBytes [1] [9, 8, 7] [5, 6] ++ [0, 0]) =
      some (magicBytes, [1], 3, [9, 8, 7], [5, 6]) :=
  parseHeader_roundtrip [1] [9, 8, 7] [5, 6] [0, 0] (by decide)

/-- Concrete instantiation of the chunking-invariance theorem: two
different partitions of the same bytes. -/
theorem hashDigest_chunk_invariant_witness :
    hashAccumDigest (fun b => toString b.length) [[1, 2], [3]] =
      hashAccumDigest (fun b => toString b.length) [[1], [2, 3]] :=
  (hashDigest_chunk_invariant (fun b => toString b.length)
    [[1, 2], [3]] [[1], [2, 3]] (by decide)).1

/-- Concrete instantiation of the single-error-message theorem. -/
theorem backupDatabase_error_message_witness :
    errCount (backupDatabase [1] (fun _ => "H")
      ⟨SUBSCRIPTION_TYPE.premium, "db", "ag", "pk"⟩
      ⟨Except.error ⟨JsVal.str "ECONN", none, "boom", "stk"⟩,
        Except.ok ([3], [9, 9]), Except.ok ([[5], [6]], [7]),
        ⟨1, 2, 2026, 3, 4⟩, Except.ok "uid", [],
        Except.ok [], Except.ok (), Except.ok ()⟩).1 = 1 :=
  (backupDatabase_error_message [1] (fun _ => "H")
    ⟨SUBSCRIPTION_TYPE.premium, "db", "ag", "pk"⟩
    ⟨Except.error ⟨JsVal.str "ECONN", none, "boom", "stk"⟩,
      Except.ok ([3], [9, 9]), Except.ok ([[5], [6]], [7]),
      ⟨1, 2, 2026, 3, 4⟩, Except.ok "uid", [],
      Except.ok [], Except.ok (), Except.ok ()⟩
    ⟨JsVal.str "ECONN", none, "boom", "stk"⟩ rfl).1

/-- Concrete instantiation of the message-handler theorem: a wrong-type
message is ignored, a well-formed start command starts the backup. -/
theorem handleMessage_spec_witness :
    handleMessage (some ⟨some "ping", none⟩) = [] ∧
    handleMessage (some ⟨some "startBackup",
        some ⟨⟨SUBSCRIPTION_TYPE.free, "db", "a", "p"⟩, ⟨none⟩⟩⟩) =
      [HandlerAct.startBackup ⟨SUBSCRIPTION_TYPE.free, "db", "a", "p"⟩ ⟨none⟩] :=
  ⟨(handleMessage_spec (some ⟨some "ping", none⟩)).1 (by decide),
   (handleMessage_spec (some ⟨some "startBackup",
      some ⟨⟨SUBSCRIPTION_TYPE.free, "db", "a", "p"⟩, ⟨none⟩⟩⟩)).2
     ⟨⟨SUBSCRIPTION_TYPE.free, "db", "a", "p"⟩, ⟨none⟩⟩ (by decide)⟩

/-- Concrete instantiation of the little-endian length-field theorem. -/
theorem le32_little_endian_witness :
    (le32 16909060).length = 4 ∧
    (∀ b ∈ le32 16909060, b < 256) ∧
    le32 16909060 = [16909060 % 256, 16909060 / 256 % 256,
      16909060 / 65536 % 256, 16909060 / 16777216 % 256] ∧
    leDecode32 (le32 16909060) = 16909060 :=
  le32_little_endian 16909060 (by decide)

/-- Concrete instantiation of the uncaughtException-bug theorem. -/
theorem uncaughtException_handler_bug_witness :
    uncaughtExceptionHandler
        ⟨JsVal.undef, some ⟨JsVal.str "body"⟩, "m", "s"⟩ =
      [HandlerEv.consoleError] ∧
    (∀ p, HandlerEv.sendErrorMsg p ∉
      uncaughtExceptionHandler
        ⟨JsVal.undef, some ⟨JsVal.str "body"⟩, "m", "s"⟩) ∧
    HandlerEv.exitOne ∉
      uncaughtExceptionHandler
        ⟨JsVal.undef, some ⟨JsVal.str "body"⟩, "m", "s"⟩ :=
  uncaughtException_handler_bug
    ⟨JsVal.undef, some ⟨JsVal.str "body"⟩, "m", "s"⟩ rfl rfl

end DbackedAgent
